import Mathlib

/-!
Verification of the real-time session and notification fan-out layer of the
portfolio application (src/backend/server.ts) against its natural-language
specification.  The socket layer (authentication middleware, per-connection
room membership, the emit helpers and the event-emitting REST mutation
handlers) is shallowly embedded as pure Lean functions; socket.io room
membership is modelled with set semantics (its adapter stores rooms as sets
of socket ids), and the database as an in-memory record of rows.
-/

namespace Portfolio5

abbrev ConnId := String
abbrev RoomId := String
abbrev UserId := String

/-- Personal room name used by the server: backticked template
`user_${user_id}` at server.ts:217 and :252. -/
def userRoom (uid : UserId) : RoomId := "user_" ++ uid

/-- Portfolio room name used by the server: template `portfolio_${portfolio_id}`
at server.ts:223, :235, :240, :259 and :266. -/
def portfolioRoom (pid : String) : RoomId := "portfolio_" ++ pid

/-- A row of the `users` table as selected by the auth middleware
(`SELECT user_id, email, name, created_at`). -/
structure User where
  user_id : String
  email : String
  name : String
  created_at : String
deriving DecidableEq

/-- A full `users` row, including the stored password (`password_hash`
column, holding the plain password in this development build). -/
structure UserRow where
  user : User
  password_hash : String
deriving DecidableEq

/-- A `portfolios` table row. -/
structure Portfolio where
  portfolio_id : String
  user_id : String
  title : String
  template_id : String
  is_published : Bool
  created_at : String
  updated_at : String
deriving DecidableEq

/-- An `analytics` table row. -/
structure Analytics where
  analytics_id : String
  portfolio_id : String
  page_views : Nat
  unique_visitors : Nat
  average_time_spent : Nat
deriving DecidableEq

/-- A `contacts` table row. -/
structure Contact where
  contact_id : String
  portfolio_id : String
  name : String
  email : String
  message : String
  received_at : String
deriving DecidableEq

/-- A `notifications` table row. -/
structure NotificationRow where
  notification_id : String
  user_id : String
  type : String
  message : String
  timestamp : String
deriving DecidableEq

/-- A `testimonials` table row. -/
structure Testimonial where
  testimonial_id : String
  portfolio_id : String
  author_name : String
  content : String
  date : String
deriving DecidableEq

/-- A `sections` table row. -/
structure PSection where
  section_id : String
  portfolio_id : String
  type : String
  content : String
  order : Int
deriving DecidableEq

/-- A `blog_posts` table row. -/
structure BlogPost where
  post_id : String
  portfolio_id : String
  title : String
  content : String
  created_at : String
  updated_at : String
deriving DecidableEq

/-- A `media_files` table row (only the columns the embedded handlers touch). -/
structure MediaFile where
  media_id : String
  section_id : String
  file_url : String
deriving DecidableEq

/-- The relational store, one list of rows per table the embedded handlers
read or write. -/
structure Db where
  userRows : List UserRow
  portfolios : List Portfolio
  analytics : List Analytics
  contacts : List Contact
  notifications : List NotificationRow
  testimonials : List Testimonial
  sections : List PSection
  blogPosts : List BlogPost
  mediaFiles : List MediaFile
deriving DecidableEq

/-- Payload of a server-to-client event, a closed union of the payload
shapes built at the emit sites of server.ts. -/
inductive Payload where
  | auth (current_user : User) (auth_token : String)
  | notif (type message timestamp : String)
  | contactForm (c : Contact)
  | analyticsData (a : Analytics)
  | portfolioData (p : Portfolio)
  | sectionAdded (s : PSection)
  | sectionUpdated (s : PSection)
  | sectionDeleted (section_id : String)
  | blogPostAdded (b : BlogPost)
  | testimonialData (t : Testimonial)
  | livePreview (portfolio_id updates timestamp : String)
  | errMessage (message : String)
deriving DecidableEq

/-- Target of an emit, mirroring the four socket.io emit forms used by
server.ts: `io.to(room).emit`, `io.emit`, `socket.emit` and
`socket.broadcast.to(room).emit`. -/
inductive Target where
  | room (r : RoomId)
  | allSockets
  | socketOnly (c : ConnId)
  | roomExceptSender (r : RoomId) (sender : ConnId)
deriving DecidableEq

/-- One server-to-client emit: target, event name on the wire, payload. -/
structure Emit where
  target : Target
  event : String
  payload : Payload
deriving DecidableEq

/-- State of the socket.io server: the registered (authenticated, live)
connections with the identity each is bound to, and room membership as a
list of (connection, room) pairs kept duplicate-free by `roomJoin`. -/
structure SocketState where
  conns : List (ConnId × UserId)
  membership : List (ConnId × RoomId)
deriving DecidableEq

/-- Whether connection `c` is currently registered. -/
def SocketState.isConn (st : SocketState) (c : ConnId) : Bool :=
  st.conns.any (fun e => e.1 == c)

/-- Whether connection `c` is a member of room `r`. -/
def SocketState.memberOf (st : SocketState) (c : ConnId) (r : RoomId) : Bool :=
  st.membership.contains (c, r)

/-- Membership snapshot of room `r`: the connections currently in it. -/
def membersOf (st : SocketState) (r : RoomId) : List ConnId :=
  (st.membership.filter (fun e => e.2 == r)).map Prod.fst

/-- socket.join: set-semantics insertion (socket.io's adapter stores a room
as a Set of socket ids, so a repeated join is a no-op). -/
def roomJoin (st : SocketState) (c : ConnId) (r : RoomId) : SocketState :=
  if (c, r) ∈ st.membership then st
  else { st with membership := (c, r) :: st.membership }

/-- socket.leave: removes the pair if present; a no-op on a non-member. -/
def roomLeave (st : SocketState) (c : ConnId) (r : RoomId) : SocketState :=
  { st with membership := st.membership.filter (fun e => e != (c, r)) }

/-- The decoded JWT payload (`jwt.verify` result), as used by the server. -/
structure UserPayload where
  user_id : String
  email : String
deriving DecidableEq

/-- The three rejection reasons of the socket auth middleware, in source
order: missing token, `jwt.verify` threw, and subject not found. -/
inductive AuthError where
  | tokenRequired
  | authFailed
  | invalidToken
deriving DecidableEq

/-- The users-table lookup `SELECT ... FROM users WHERE user_id = $1`. -/
def findUserById (db : Db) (uid : String) : Option User :=
  (db.userRows.find? (fun row => row.user.user_id == uid)).map UserRow.user

/-- The socket authentication middleware `authenticateSocket`
(server.ts:189-208).  `verify` abstracts `jwt.verify` (returning none when
it throws); one identity-store lookup by the subject in the credential. -/
def authenticateSocket (verify : String → Option UserPayload) (db : Db)
    (token : Option String) : Except AuthError User :=
  match token with
  | none => .error .tokenRequired
  | some t =>
    match verify t with
    | none => .error .authFailed
    | some decoded =>
      match findUserById db decoded.user_id with
      | none => .error .invalidToken
      | some u => .ok u

/-- Client-to-server socket traffic: a connection attempt (handshake with
an optional bearer token), the `join_portfolio` / `leave_portfolio` /
`portfolio_update` messages, and transport disconnect. -/
inductive SMsg where
  | connectAttempt (c : ConnId) (token : Option String)
  | joinPortfolio (c : ConnId) (portfolio_id : String)
  | leavePortfolio (c : ConnId) (portfolio_id : String)
  | portfolioUpdateMsg (sender : ConnId) (portfolio_id updates timestamp : String)
      (broadcastThrows : Bool)
  | disconnect (c : ConnId)
deriving DecidableEq

/-- State transition of the socket layer (server.ts:211-246).  A connection
attempt runs the auth middleware; on success the socket is registered and
auto-joined to its personal room (socket.join at :217), on failure nothing
is registered.  `join_portfolio` / `leave_portfolio` act only for live
connections (socket.io only routes messages of connected sockets) and join
or leave the `portfolio_` room.  `portfolio_update` changes no membership.
Disconnect removes the connection and (as socket.io does) every room entry
it had. -/
def step (verify : String → Option UserPayload) (db : Db)
    (st : SocketState) (m : SMsg) : SocketState :=
  match m with
  | .connectAttempt c token =>
    if st.isConn c then st
    else
      match authenticateSocket verify db token with
      | .ok u => roomJoin { st with conns := (c, u.user_id) :: st.conns } c (userRoom u.user_id)
      | .error _ => st
  | .joinPortfolio c pid =>
    if st.isConn c then roomJoin st c (portfolioRoom pid) else st
  | .leavePortfolio c pid =>
    if st.isConn c then roomLeave st c (portfolioRoom pid) else st
  | .portfolioUpdateMsg _ _ _ _ _ => st
  | .disconnect c =>
    { conns := st.conns.filter (fun e => e.1 != c),
      membership := st.membership.filter (fun e => e.1 != c) }

/-- The empty socket server: no connections, no rooms. -/
def initState : SocketState := ⟨[], []⟩

/-- The socket state after a sequence of client messages, from the empty
server. -/
def run (verify : String → Option UserPayload) (db : Db)
    (evts : List SMsg) : SocketState :=
  evts.foldl (step verify db) initState

/-- Which connections an emit reaches, given the membership snapshot at the
instant of dispatch: `io.to(room)` reaches the room's current members,
`io.emit` reaches every connected socket, `socket.emit` only the one
socket, `socket.broadcast.to(room)` the room's members except the sender. -/
def deliveredTo (st : SocketState) (e : Emit) (c : ConnId) : Bool :=
  match e.target with
  | .room r => st.memberOf c r
  | .allSockets => st.isConn c
  | .socketOnly c0 => c == c0 && st.isConn c
  | .roomExceptSender r sender => st.memberOf c r && c != sender

/-- Server-side emits produced by a client socket message.  Only the
`portfolio_update` handler emits: a `live_preview_update` broadcast to the
portfolio room excluding the sender (server.ts:223), or (if the broadcast
throws) an `error` event back to the sender (server.ts:229).  The join,
leave, connect and disconnect handlers emit nothing. -/
def socketMsgEmits (st : SocketState) (m : SMsg) : List Emit :=
  match m with
  | .portfolioUpdateMsg sender pid updates ts broadcastThrows =>
    if st.isConn sender then
      if broadcastThrows then
        [⟨.socketOnly sender, "error", .errMessage "Failed to broadcast portfolio update"⟩]
      else
        [⟨.roomExceptSender (portfolioRoom pid) sender, "live_preview_update",
          .livePreview pid updates ts⟩]
    else []
  | _ => []

/-- Helper `emitNotificationToUser` (server.ts:251-253):
`io.to(user_<user_id>).emit(notification, payload)`. -/
def emitNotificationToUser (user_id : UserId) (notification : Payload) : Emit :=
  ⟨.room (userRoom user_id), "notification", notification⟩

/-- Helper `emitPortfolioUpdate` (server.ts:258-260):
`io.to(portfolio_<portfolio_id>).emit(portfolio_updates, payload)`. -/
def emitPortfolioUpdate (portfolio_id : String) (portfolio_data : Payload) : Emit :=
  ⟨.room (portfolioRoom portfolio_id), "portfolio_updates", portfolio_data⟩

/-- Helper `emitAnalyticsUpdate` (server.ts:265-267):
`io.to(portfolio_<portfolio_id>).emit(analytics/updates, payload)`. -/
def emitAnalyticsUpdate (portfolio_id : String) (analytics_data : Payload) : Emit :=
  ⟨.room (portfolioRoom portfolio_id), "analytics/updates", analytics_data⟩

/-- Result of a REST handler run: the store after its writes, the HTTP
status sent, and the socket emits it performed, in order. -/
structure HandlerResult where
  db : Db
  status : Nat
  emits : List Emit
deriving DecidableEq

/-- Lookup of a user row by email (`SELECT ... FROM users WHERE email = $1`). -/
def findUserByEmail (db : Db) (email : String) : Option UserRow :=
  db.userRows.find? (fun row => row.user.email == email)

/-- The embedding of JavaScript's `toLowerCase()` (character-wise
lowering), written over the character list so that it evaluates. -/
def strToLower (s : String) : String := ⟨s.data.map Char.toLower⟩

/-- The embedding of JavaScript's `trim()` (strip leading and trailing
whitespace), written over the character list so that it evaluates. -/
def strTrim (s : String) : String :=
  ⟨((s.data.dropWhile Char.isWhitespace).reverse.dropWhile Char.isWhitespace).reverse⟩

/-- Validated body of POST /api/auth/register. -/
structure RegisterInput where
  email : String
  password_hash : String
  name : String
deriving DecidableEq

/-- POST /api/auth/register (server.ts:275-327).  `sign` abstracts
`jwt.sign` over (user_id, email); `uuid` and `now` the generated id and
timestamp.  The duplicate check queries the raw submitted email while the
insert stores it lowercased and trimmed, exactly as the source does. -/
def registerHandler (sign : String → String → String) (uuid now : String)
    (db : Db) (body : RegisterInput) : HandlerResult :=
  if (findUserByEmail db body.email).isSome then ⟨db, 400, []⟩
  else
    let user : User := ⟨uuid, strTrim (strToLower body.email), strTrim body.name, now⟩
    let token := sign user.user_id user.email
    let db2 := { db with userRows := db.userRows ++ [⟨user, body.password_hash⟩] }
    ⟨db2, 201, [emitNotificationToUser user.user_id (.auth user token)]⟩

/-- POST /api/auth/login (server.ts:333-389).  Missing fields give 400; the
user is looked up by lowercased trimmed email; the stored password is
compared directly; on success one notification with the fresh token and
the user record is emitted to the personal room. -/
def loginHandler (sign : String → String → String) (db : Db)
    (email password : String) : HandlerResult :=
  if email.isEmpty || password.isEmpty then ⟨db, 400, []⟩
  else
    match findUserByEmail db (strTrim (strToLower email)) with
    | none => ⟨db, 400, []⟩
    | some row =>
      if password != row.password_hash then ⟨db, 400, []⟩
      else
        let token := sign row.user.user_id row.user.email
        ⟨db, 200, [emitNotificationToUser row.user.user_id (.auth row.user token)]⟩

/-- Ownership lookup
`SELECT * FROM portfolios WHERE portfolio_id = $1 AND user_id = $2`. -/
def findOwnedPortfolio (db : Db) (pid uid : String) : Option Portfolio :=
  db.portfolios.find? (fun p => p.portfolio_id == pid && p.user_id == uid)

/-- Validated body of POST /api/portfolios. -/
structure CreatePortfolioInput where
  user_id : String
  title : String
  template_id : String
  is_published : Bool
deriving DecidableEq

/-- POST /api/portfolios (server.ts:458-496): forbids creating for another
user, inserts the portfolio and a zeroed analytics row, then emits a
`portfolio_updates` event to the new portfolio's room. -/
def createPortfolioHandler (uuidP uuidA now : String) (db : Db)
    (auth_user_id : String) (body : CreatePortfolioInput) : HandlerResult :=
  if body.user_id != auth_user_id then ⟨db, 403, []⟩
  else
    let p : Portfolio := ⟨uuidP, body.user_id, body.title, body.template_id,
      body.is_published, now, now⟩
    let a : Analytics := ⟨uuidA, uuidP, 0, 0, 0⟩
    let db2 := { db with portfolios := db.portfolios ++ [p],
                         analytics := db.analytics ++ [a] }
    ⟨db2, 201, [emitPortfolioUpdate uuidP (.portfolioData p)]⟩

/-- Validated body of PUT /api/portfolios/:portfolio_id (all updatable
fields optional). -/
structure PortfolioUpdateInput where
  title : Option String
  template_id : Option String
  is_published : Option Bool
deriving DecidableEq

/-- The dynamic UPDATE of the put-portfolio handler: present fields
overwrite, `updated_at` is always refreshed. -/
def applyPortfolioUpdate (p : Portfolio) (u : PortfolioUpdateInput)
    (now : String) : Portfolio :=
  { p with
    title := u.title.getD p.title,
    template_id := u.template_id.getD p.template_id,
    is_published := u.is_published.getD p.is_published,
    updated_at := now }

/-- PUT /api/portfolios/:portfolio_id (server.ts:526-589).  `emitThrows`
models `emitPortfolioUpdate` raising after the UPDATE has committed: the
handler's catch-all then logs and answers 500 — the committed write is kept
either way, because the UPDATE was already awaited. -/
def putPortfolioHandler (db : Db) (uid pid : String)
    (upd : PortfolioUpdateInput) (now : String) (emitThrows : Bool) : HandlerResult :=
  match findOwnedPortfolio db pid uid with
  | none => ⟨db, 404, []⟩
  | some p =>
    let p2 := applyPortfolioUpdate p upd now
    let rows := db.portfolios.map fun q =>
      if q.portfolio_id == pid && q.user_id == uid then p2 else q
    let db2 := { db with portfolios := rows }
    if emitThrows then ⟨db2, 500, []⟩
    else ⟨db2, 200, [emitPortfolioUpdate pid (.portfolioData p2)]⟩

/-- The analytics increment of the view-tracking UPDATE. -/
def bumpAnalytics (a : Analytics) : Analytics :=
  { a with page_views := a.page_views + 1, unique_visitors := a.unique_visitors + 1 }

/-- POST /api/portfolios/:portfolio_id/view (server.ts:1018-1046): the
UPDATE ... RETURNING increments counters for the portfolio's analytics row;
only when a row was updated is an `analytics/updates` event emitted to the
portfolio room.  The response is 200 either way. -/
def viewHandler (db : Db) (pid : String) : HandlerResult :=
  let updated := db.analytics.map fun a =>
    if a.portfolio_id == pid then bumpAnalytics a else a
  let db2 := { db with analytics := updated }
  match updated.find? (fun a => a.portfolio_id == pid) with
  | some a => ⟨db2, 200, [emitAnalyticsUpdate pid (.analyticsData a)]⟩
  | none => ⟨db2, 200, []⟩

/-- Validated body of POST /api/portfolios/:portfolio_id/contact. -/
structure ContactInput where
  name : String
  email : String
  message : String
deriving DecidableEq

/-- POST /api/portfolios/:portfolio_id/contact (server.ts:1054-1115).  The
contact row is inserted unconditionally; if the portfolio has an owner, a
notification row is stored for the owner, a `notification` event is emitted
to the owner's personal room, and a `contact/form/submit` event is emitted
with `io.emit` — to every connected socket, not to any room. -/
def contactHandler (uuidC uuidN now : String) (db : Db) (pid : String)
    (body : ContactInput) : HandlerResult :=
  let contact : Contact := ⟨uuidC, pid, body.name, body.email, body.message, now⟩
  let db2 := { db with contacts := db.contacts ++ [contact] }
  match db.portfolios.find? (fun p => p.portfolio_id == pid) with
  | none => ⟨db2, 201, []⟩
  | some p =>
    let message := "New contact form submission from " ++ body.name
    let notifRow : NotificationRow := ⟨uuidN, p.user_id, "contact_form", message, now⟩
    let db3 := { db2 with notifications := db2.notifications ++ [notifRow] }
    ⟨db3, 201,
      [emitNotificationToUser p.user_id (.notif "contact_form" message now),
       ⟨.allSockets, "contact/form/submit", .contactForm contact⟩]⟩

/-- Validated body of POST /api/portfolios/:portfolio_id/testimonials. -/
structure TestimonialInput where
  author_name : String
  content : String
  date : String
deriving DecidableEq

/-- POST /api/portfolios/:portfolio_id/testimonials (server.ts:1123-1165):
after the ownership check and the insert, a `testimonials/new` event is
emitted with `io.emit` — to every connected socket, not to any room. -/
def testimonialHandler (uuid : String) (db : Db) (uid pid : String)
    (body : TestimonialInput) : HandlerResult :=
  match findOwnedPortfolio db pid uid with
  | none => ⟨db, 404, []⟩
  | some _ =>
    let t : Testimonial := ⟨uuid, pid, body.author_name, body.content, body.date⟩
    ⟨{ db with testimonials := db.testimonials ++ [t] }, 201,
      [⟨.allSockets, "testimonials/new", .testimonialData t⟩]⟩

/-- Validated body of POST /api/portfolios/:portfolio_id/sections. -/
structure SectionInput where
  type : String
  content : String
  order : Int
deriving DecidableEq

/-- POST /api/portfolios/:portfolio_id/sections (server.ts:663-698):
ownership check, insert, then a `portfolio_updates` event tagged
`section_added` to the portfolio room. -/
def postSectionHandler (uuid : String) (db : Db) (uid pid : String)
    (body : SectionInput) : HandlerResult :=
  match findOwnedPortfolio db pid uid with
  | none => ⟨db, 404, []⟩
  | some _ =>
    let s : PSection := ⟨uuid, pid, body.type, body.content, body.order⟩
    ⟨{ db with sections := db.sections ++ [s] }, 201,
      [emitPortfolioUpdate pid (.sectionAdded s)]⟩

/-- Validated body of PUT .../sections/:section_id (optional fields). -/
structure SectionUpdateInput where
  type : Option String
  content : Option String
  order : Option Int
deriving DecidableEq

/-- The ownership join of the section endpoints:
`sections JOIN portfolios ... WHERE section_id AND portfolio_id AND user_id`. -/
def findOwnedSection (db : Db) (sid pid uid : String) : Option PSection :=
  if (findOwnedPortfolio db pid uid).isSome then
    db.sections.find? (fun s => s.section_id == sid && s.portfolio_id == pid)
  else none

/-- PUT /api/portfolios/:portfolio_id/sections/:section_id
(server.ts:704-763): ownership join, dynamic UPDATE keyed on section_id
alone, then a `portfolio_updates` event tagged `section_updated`. -/
def putSectionHandler (db : Db) (uid pid sid : String)
    (upd : SectionUpdateInput) : HandlerResult :=
  match findOwnedSection db sid pid uid with
  | none => ⟨db, 404, []⟩
  | some s0 =>
    let s2 : PSection := { s0 with
      type := upd.type.getD s0.type,
      content := upd.content.getD s0.content,
      order := upd.order.getD s0.order }
    let rows := db.sections.map fun s => if s.section_id == sid then s2 else s
    ⟨{ db with sections := rows }, 200,
      [emitPortfolioUpdate pid (.sectionUpdated s2)]⟩

/-- DELETE /api/portfolios/:portfolio_id/sections/:section_id
(server.ts:769-797): ownership join, delete of the section's media files
and of the section, then a `portfolio_updates` event tagged
`section_deleted`. -/
def deleteSectionHandler (db : Db) (uid pid sid : String) : HandlerResult :=
  match findOwnedSection db sid pid uid with
  | none => ⟨db, 404, []⟩
  | some _ =>
    let media := db.mediaFiles.filter fun m => m.section_id != sid
    let secs := db.sections.filter fun s => s.section_id != sid
    ⟨{ db with mediaFiles := media, sections := secs }, 204,
      [emitPortfolioUpdate pid (.sectionDeleted sid)]⟩

/-- Validated body of POST /api/portfolios/:portfolio_id/blog-posts. -/
structure BlogInput where
  title : String
  content : String
deriving DecidableEq

/-- POST /api/portfolios/:portfolio_id/blog-posts (server.ts:892-930):
ownership check, insert, then a `portfolio_updates` event tagged
`blog_post_added` to the portfolio room. -/
def postBlogHandler (uuid now : String) (db : Db) (uid pid : String)
    (body : BlogInput) : HandlerResult :=
  match findOwnedPortfolio db pid uid with
  | none => ⟨db, 404, []⟩
  | some _ =>
    let b : BlogPost := ⟨uuid, pid, body.title, body.content, now, now⟩
    ⟨{ db with blogPosts := db.blogPosts ++ [b] }, 201,
      [emitPortfolioUpdate pid (.blogPostAdded b)]⟩

/-- The REST operations of server.ts that can emit socket events, with the
generated ids/timestamps and auth identity as parameters. -/
inductive ServerOp where
  | registerOp (uuid now : String) (body : RegisterInput)
  | loginOp (email password : String)
  | createPortfolioOp (uuidP uuidA now auth_user_id : String) (body : CreatePortfolioInput)
  | putPortfolioOp (uid pid : String) (upd : PortfolioUpdateInput) (now : String)
      (emitThrows : Bool)
  | postSectionOp (uuid uid pid : String) (body : SectionInput)
  | putSectionOp (uid pid sid : String) (upd : SectionUpdateInput)
  | deleteSectionOp (uid pid sid : String)
  | postBlogOp (uuid now uid pid : String) (body : BlogInput)
  | viewOp (pid : String)
  | contactOp (uuidC uuidN now pid : String) (body : ContactInput)
  | testimonialOp (uuid uid pid : String) (body : TestimonialInput)
deriving DecidableEq

/-- Dispatch of a REST operation to its handler. -/
def opResult (sign : String → String → String) (db : Db) : ServerOp → HandlerResult
  | .registerOp uuid now body => registerHandler sign uuid now db body
  | .loginOp email password => loginHandler sign db email password
  | .createPortfolioOp uuidP uuidA now auth body =>
      createPortfolioHandler uuidP uuidA now db auth body
  | .putPortfolioOp uid pid upd now thr => putPortfolioHandler db uid pid upd now thr
  | .postSectionOp uuid uid pid body => postSectionHandler uuid db uid pid body
  | .putSectionOp uid pid sid upd => putSectionHandler db uid pid sid upd
  | .deleteSectionOp uid pid sid => deleteSectionHandler db uid pid sid
  | .postBlogOp uuid now uid pid body => postBlogHandler uuid now db uid pid body
  | .viewOp pid => viewHandler db pid
  | .contactOp uuidC uuidN now pid body => contactHandler uuidC uuidN now db pid body
  | .testimonialOp uuid uid pid body => testimonialHandler uuid db uid pid body

/-- The socket emits a REST operation performs. -/
def opEmits (sign : String → String → String) (db : Db) (op : ServerOp) : List Emit :=
  (opResult sign db op).emits

/-- The event names server.ts actually pushes to clients, one per emit
site: the two `io.emit` broadcasts, the three room helpers, and the two
emissions of the socket `portfolio_update` handler. -/
def serverEventNames : List String :=
  ["notification", "portfolio_updates", "analytics/updates",
   "contact/form/submit", "testimonials/new", "live_preview_update", "error"]

/-- Modelled from the spec: the closed set of six event types the
specification names in §4.4 (the code is the authority; this list exists
only to compare the spec's words against the emits of the source). -/
def specEventNames : List String :=
  ["notification", "portfolio_update", "section_changed", "analytics_update",
   "contact_form_submitted", "testimonial_added"]

/-- One step of a handler's execution, for ordering properties: a database
statement completing (with whether it touched a row), a socket dispatch, or
the HTTP response. -/
inductive Action where
  | dbWrite (table : String) (hit : Bool)
  | dispatch (e : Emit)
  | respond (status : Nat)
deriving DecidableEq

/-- Whether an action is a socket dispatch. -/
def Action.isDispatch : Action → Bool
  | .dispatch _ => true
  | _ => false

/-- Whether an action is a database write that completed and touched a row. -/
def Action.isCommittedWrite : Action → Bool
  | .dbWrite _ hit => hit
  | _ => false

/-- Execution order of PUT /api/portfolios/:portfolio_id: the awaited
UPDATE commits first; the emit and the response follow, or a 404 with no
write when the ownership check fails, or a 500 after the committed write
when the emit throws. -/
def putPortfolioTrace (db : Db) (uid pid : String) (upd : PortfolioUpdateInput)
    (now : String) (emitThrows : Bool) : List Action :=
  match findOwnedPortfolio db pid uid with
  | none => [.respond 404]
  | some p =>
    let p2 := applyPortfolioUpdate p upd now
    if emitThrows then
      [.dbWrite "portfolios" true, .respond 500]
    else
      [.dbWrite "portfolios" true,
       .dispatch (emitPortfolioUpdate pid (.portfolioData p2)),
       .respond 200]

/-- Execution order of POST /api/portfolios/:portfolio_id/view: the awaited
UPDATE completes first; the emit happens only when the UPDATE returned a
row, and the 200 response follows in every case. -/
def viewTrace (db : Db) (pid : String) : List Action :=
  let updated := db.analytics.map fun a =>
    if a.portfolio_id == pid then bumpAnalytics a else a
  match updated.find? (fun a => a.portfolio_id == pid) with
  | some a =>
    [.dbWrite "analytics" true,
     .dispatch (emitAnalyticsUpdate pid (.analyticsData a)),
     .respond 200]
  | none => [.dbWrite "analytics" false, .respond 200]

/-- Every dispatch in the trace is preceded by a committed, row-touching
database write. -/
def dispatchAfterCommit (tr : List Action) : Prop :=
  ∀ i : Fin tr.length, (tr.get i).isDispatch = true →
    ∃ j : Fin tr.length, j.val < i.val ∧ (tr.get j).isCommittedWrite = true

/-! Concrete fixtures, mirroring the seed rows of the repository's SQL
seed script, used by witnesses and counterexamples. -/

/-- A concrete signing function standing in for `jwt.sign`. -/
def sign0 : String → String → String := fun uid email => "jwt." ++ uid ++ "." ++ email

/-- A concrete `jwt.verify`: two valid tokens, everything else throws. -/
def verify0 : String → Option UserPayload := fun t =>
  if t == "tok1" then some ⟨"u1", "user1@example.com"⟩
  else if t == "tok2" then some ⟨"u2", "admin@example.com"⟩
  else none

/-- Seed user u1. -/
def user1 : User := ⟨"u1", "user1@example.com", "John Doe", "2023-01-01T00:00:00"⟩

/-- Seed user u2. -/
def user2 : User := ⟨"u2", "admin@example.com", "Admin User", "2023-01-01T00:00:00"⟩

/-- Seed portfolio p1, owned by u1. -/
def portfolio1 : Portfolio :=
  ⟨"p1", "u1", "Portfolio One", "t1", true, "2023-02-01T00:00:00", "2023-02-02T00:00:00"⟩

/-- A concrete store with the two seed users, portfolio p1 and its
analytics row. -/
def db0 : Db :=
  ⟨[⟨user1, "password123"⟩, ⟨user2, "admin123"⟩], [portfolio1],
   [⟨"a1", "p1", 150, 100, 5⟩], [], [], [], [], [], []⟩

/-- A concrete socket state: connections A (as u1) and B (as u2), each in
its personal room only. -/
def st0 : SocketState :=
  run verify0 db0 [.connectAttempt "A" (some "tok1"), .connectAttempt "B" (some "tok2")]

/-- The connection is absent from the whole socket state: not registered
and in no room. -/
def SocketState.absent (st : SocketState) (c : ConnId) : Prop :=
  (∀ u, (c, u) ∉ st.conns) ∧ (∀ r, (c, r) ∉ st.membership)

/-- Every registered connection is a member of its personal room. -/
def personalRoomInv (st : SocketState) : Prop :=
  ∀ c u, (c, u) ∈ st.conns → (c, userRoom u) ∈ st.membership

/-- The global broadcast produced by the concrete contact-form submission
used as counterexample for C1. -/
def contactBroadcast0 : Emit :=
  ⟨.allSockets, "contact/form/submit",
    .contactForm ⟨"c9", "p1", "Visitor", "visitor@example.com", "hello", "t0"⟩⟩

/-- An emit whose event name is one actually used by server.ts, and which,
if it is a `notification`, targets a personal room. -/
def goodEmit (e : Emit) : Prop :=
  e.event ∈ serverEventNames
  ∧ (e.event = "notification" → ∃ uid : UserId, e.target = .room (userRoom uid))

/-- The emit of the concrete put-portfolio run used as counterexample for
C2. -/
def putEmit0 : Emit :=
  emitPortfolioUpdate "p1" (.portfolioData (applyPortfolioUpdate portfolio1 ⟨none, none, none⟩ "t1"))

/-! Helper lemmas about room names, membership and the transition system. -/

/-- A personal room never coincides with a portfolio room: the two prefixes
differ at the first character. -/
theorem userRoom_ne_portfolioRoom (u p : String) : userRoom u ≠ portfolioRoom p := by
  intro h
  have h2 := congrArg String.data h
  simp only [userRoom, portfolioRoom, String.data_append] at h2
  simp at h2

/-- Joining preserves existing membership entries. -/
theorem mem_roomJoin_of_mem {st : SocketState} {x : ConnId × RoomId}
    (h : x ∈ st.membership) (c : ConnId) (r : RoomId) :
    x ∈ (roomJoin st c r).membership := by
  unfold roomJoin
  by_cases hin : (c, r) ∈ st.membership <;> simp [hin, h]

/-- After a join, the joined pair is a member. -/
theorem mem_roomJoin_self (st : SocketState) (c : ConnId) (r : RoomId) :
    (c, r) ∈ (roomJoin st c r).membership := by
  unfold roomJoin
  by_cases hin : (c, r) ∈ st.membership <;> simp [hin]

/-- Membership entries of a join are the joined pair or old entries. -/
theorem mem_of_mem_roomJoin {st : SocketState} {x : ConnId × RoomId}
    {c : ConnId} {r : RoomId} (h : x ∈ (roomJoin st c r).membership) :
    x = (c, r) ∨ x ∈ st.membership := by
  unfold roomJoin at h
  by_cases hin : (c, r) ∈ st.membership <;> simp [hin] at h
  · exact .inr h
  · exact h

/-- A join does not change the registered connections. -/
theorem roomJoin_conns (st : SocketState) (c : ConnId) (r : RoomId) :
    (roomJoin st c r).conns = st.conns := by
  unfold roomJoin
  by_cases hin : (c, r) ∈ st.membership <;> simp [hin]

/-- A leave does not change the registered connections. -/
theorem roomLeave_conns (st : SocketState) (c : ConnId) (r : RoomId) :
    (roomLeave st c r).conns = st.conns := rfl

/-- Membership entries of a leave are old entries other than the left pair. -/
theorem mem_roomLeave {st : SocketState} {x : ConnId × RoomId}
    {c : ConnId} {r : RoomId} :
    x ∈ (roomLeave st c r).membership ↔ x ∈ st.membership ∧ x ≠ (c, r) := by
  unfold roomLeave
  simp [List.mem_filter]

/-- Joining keeps a duplicate-free membership list duplicate-free. -/
theorem roomJoin_nodup {st : SocketState} (h : st.membership.Nodup)
    (c : ConnId) (r : RoomId) : (roomJoin st c r).membership.Nodup := by
  unfold roomJoin
  by_cases hin : (c, r) ∈ st.membership <;> simp [hin, h]

/-- Leaving keeps a duplicate-free membership list duplicate-free. -/
theorem roomLeave_nodup {st : SocketState} (h : st.membership.Nodup)
    (c : ConnId) (r : RoomId) : (roomLeave st c r).membership.Nodup :=
  h.filter _

/-- Every step keeps the membership list duplicate-free. -/
theorem step_nodup (verify : String → Option UserPayload) (db : Db)
    {st : SocketState} (h : st.membership.Nodup) (m : SMsg) :
    (step verify db st m).membership.Nodup := by
  cases m with
  | connectAttempt c token =>
    by_cases hc : st.isConn c = true
    · simpa [step, hc] using h
    · cases hauth : authenticateSocket verify db token with
      | ok u =>
        have h0 : SocketState.membership
            { conns := (c, u.user_id) :: st.conns, membership := st.membership } |>.Nodup := h
        have h2 := roomJoin_nodup h0 c (userRoom u.user_id)
        simpa [step, hc, hauth] using h2
      | error e => simpa [step, hc, hauth] using h
  | joinPortfolio c pid =>
    by_cases hc : st.isConn c = true
    · simpa [step, hc] using roomJoin_nodup h c (portfolioRoom pid)
    · simpa [step, hc] using h
  | leavePortfolio c pid =>
    by_cases hc : st.isConn c = true
    · simpa [step, hc] using roomLeave_nodup h c (portfolioRoom pid)
    · simpa [step, hc] using h
  | portfolioUpdateMsg s pid u ts thr => simpa [step] using h
  | disconnect c => exact h.filter _

/-- Every reachable socket state has a duplicate-free membership list. -/
theorem run_nodup (verify : String → Option UserPayload) (db : Db)
    (evts : List SMsg) : (run verify db evts).membership.Nodup := by
  suffices h : ∀ st : SocketState, st.membership.Nodup →
      (evts.foldl (step verify db) st).membership.Nodup by
    exact h initState (by simp [initState])
  induction evts with
  | nil => intro st h; simpa using h
  | cons m t ih => intro st h; exact ih _ (step_nodup verify db h m)

/-- An absent connection is not registered. -/
theorem absent_isConn {st : SocketState} {c : ConnId} (h : st.absent c) :
    st.isConn c = false := by
  have h2 : ¬ st.isConn c = true := by
    simp only [SocketState.isConn, List.any_eq_true]
    rintro ⟨⟨c1, u⟩, hmem, hbeq⟩
    simp only [beq_iff_eq] at hbeq
    subst hbeq
    exact h.1 u hmem
  simpa using h2

/-- A connection whose every connect attempt fails stays absent across any
single step. -/
theorem step_absent (verify : String → Option UserPayload) (db : Db)
    {st : SocketState} {c : ConnId} (h : st.absent c) (m : SMsg)
    (hm : ∀ token, m = .connectAttempt c token →
      ∀ u, authenticateSocket verify db token ≠ .ok u) :
    (step verify db st m).absent c := by
  cases m with
  | connectAttempt c0 token =>
    by_cases hc0 : st.isConn c0 = true
    · simpa [step, hc0] using h
    · cases hauth : authenticateSocket verify db token with
      | ok u =>
        have hne : c0 ≠ c := by
          intro he
          subst he
          exact hm token rfl u hauth
        have hstep : step verify db st (.connectAttempt c0 token) =
            roomJoin { conns := (c0, u.user_id) :: st.conns, membership := st.membership }
              c0 (userRoom u.user_id) := by
          simp [step, hc0, hauth]
        rw [hstep]
        constructor
        · intro u0 hmem
          rw [roomJoin_conns] at hmem
          rcases List.mem_cons.mp hmem with he | hmem2
          · simp only [Prod.mk.injEq] at he
            exact hne he.1.symm
          · exact h.1 u0 hmem2
        · intro r hmem
          rcases mem_of_mem_roomJoin hmem with he | hmem2
          · simp only [Prod.mk.injEq] at he
            exact hne he.1.symm
          · exact h.2 r hmem2
      | error e =>
        simpa [step, hc0, hauth] using h
  | joinPortfolio c0 pid =>
    by_cases hc0 : st.isConn c0 = true
    · have hne : c0 ≠ c := by
        intro he
        subst he
        rw [absent_isConn h] at hc0
        exact Bool.false_ne_true hc0
      have hstep : step verify db st (.joinPortfolio c0 pid) =
          roomJoin st c0 (portfolioRoom pid) := by
        simp [step, hc0]
      rw [hstep]
      refine ⟨fun u0 hmem => h.1 u0 (by rwa [roomJoin_conns] at hmem), ?_⟩
      intro r hmem
      rcases mem_of_mem_roomJoin hmem with he | hmem2
      · simp only [Prod.mk.injEq] at he
        exact hne he.1.symm
      · exact h.2 r hmem2
    · simpa [step, hc0] using h
  | leavePortfolio c0 pid =>
    by_cases hc0 : st.isConn c0 = true
    · have hstep : step verify db st (.leavePortfolio c0 pid) =
          roomLeave st c0 (portfolioRoom pid) := by
        simp [step, hc0]
      rw [hstep]
      refine ⟨fun u0 hmem => h.1 u0 (by rwa [roomLeave_conns] at hmem), ?_⟩
      intro r hmem
      exact h.2 r (mem_roomLeave.mp hmem).1
    · simpa [step, hc0] using h
  | portfolioUpdateMsg s pid u ts thr => simpa [step] using h
  | disconnect c0 =>
    constructor
    · intro u0 hmem
      exact h.1 u0 (List.mem_of_mem_filter hmem)
    · intro r hmem
      exact h.2 r (List.mem_of_mem_filter hmem)

/-- A connection whose every connect attempt in the trace fails is absent
from the final state. -/
theorem run_absent (verify : String → Option UserPayload) (db : Db)
    (evts : List SMsg) (c : ConnId)
    (hfail : ∀ token, SMsg.connectAttempt c token ∈ evts →
      ∀ u, authenticateSocket verify db token ≠ .ok u) :
    (run verify db evts).absent c := by
  suffices haux : ∀ evts2 : List SMsg, ∀ st : SocketState, st.absent c →
      (∀ token, SMsg.connectAttempt c token ∈ evts2 →
        ∀ u, authenticateSocket verify db token ≠ .ok u) →
      (evts2.foldl (step verify db) st).absent c by
    exact haux evts initState (by constructor <;> intro x hx <;> simp [initState] at hx) hfail
  intro evts2
  induction evts2 with
  | nil => intro st h _; simpa using h
  | cons m t ih =>
    intro st h hf
    refine ih _ (step_absent verify db h m ?_) ?_
    · intro token hm u
      exact hf token (by rw [hm]; exact List.mem_cons_self _ _) u
    · intro token hmem u
      exact hf token (List.mem_cons_of_mem _ hmem) u

/-- A pair absent from the membership list gives a connection absent from
that room's snapshot. -/
theorem not_mem_membersOf {st : SocketState} {c : ConnId} {r : RoomId}
    (h : (c, r) ∉ st.membership) : c ∉ membersOf st r := by
  unfold membersOf
  simp only [List.mem_map, List.mem_filter]
  rintro ⟨⟨c1, r1⟩, ⟨hmem, hr⟩, hfst⟩
  simp only [beq_iff_eq] at hr
  simp only at hfst
  subst hr
  subst hfst
  exact h hmem

/-- The multiplicity of a connection in a room's snapshot is the
multiplicity of the pair in the membership list. -/
theorem count_membersOf (mem : List (ConnId × RoomId)) (c : ConnId) (r : RoomId) :
    ((mem.filter (fun e => e.2 == r)).map Prod.fst).count c = mem.count (c, r) := by
  induction mem with
  | nil => rfl
  | cons e t ih =>
    cases e with
    | mk c1 r1 =>
      by_cases hr : r1 = r
      · subst hr
        by_cases hcc : c1 = c
        · subst hcc
          simp [List.filter_cons, List.count_cons, ih]
        · simp [List.filter_cons, List.count_cons, hcc, ih, Ne.symm hcc]
      · simp [List.filter_cons, List.count_cons, hr, ih, fun h : c = c1 ∧ r = r1 => hr h.2.symm]

/-- One step preserves the personal-room invariant: registration joins the
personal room, `leave_portfolio` can only remove `portfolio_` rooms, and a
disconnect removes the registration together with the membership. -/
theorem step_personalRoomInv (verify : String → Option UserPayload) (db : Db)
    {st : SocketState} (h : personalRoomInv st) (m : SMsg) :
    personalRoomInv (step verify db st m) := by
  cases m with
  | connectAttempt c0 token =>
    by_cases hc0 : st.isConn c0 = true
    · simpa [step, hc0] using h
    · cases hauth : authenticateSocket verify db token with
      | ok u =>
        have hstep : step verify db st (.connectAttempt c0 token) =
            roomJoin { conns := (c0, u.user_id) :: st.conns, membership := st.membership }
              c0 (userRoom u.user_id) := by
          simp [step, hc0, hauth]
        rw [hstep]
        intro c1 u1 hmem
        rw [roomJoin_conns] at hmem
        rcases List.mem_cons.mp hmem with he | hmem2
        · simp only [Prod.mk.injEq] at he
          rw [he.1, he.2]
          exact mem_roomJoin_self _ _ _
        · have h0 : (c1, userRoom u1) ∈ SocketState.membership
              { conns := (c0, u.user_id) :: st.conns, membership := st.membership } :=
            h c1 u1 hmem2
          exact mem_roomJoin_of_mem h0 _ _
      | error e =>
        simpa [step, hc0, hauth] using h
  | joinPortfolio c0 pid =>
    by_cases hc0 : st.isConn c0 = true
    · have hstep : step verify db st (.joinPortfolio c0 pid) =
          roomJoin st c0 (portfolioRoom pid) := by
        simp [step, hc0]
      rw [hstep]
      intro c1 u1 hmem
      rw [roomJoin_conns] at hmem
      exact mem_roomJoin_of_mem (h c1 u1 hmem) _ _
    · simpa [step, hc0] using h
  | leavePortfolio c0 pid =>
    by_cases hc0 : st.isConn c0 = true
    · have hstep : step verify db st (.leavePortfolio c0 pid) =
          roomLeave st c0 (portfolioRoom pid) := by
        simp [step, hc0]
      rw [hstep]
      intro c1 u1 hmem
      rw [roomLeave_conns] at hmem
      refine mem_roomLeave.mpr ⟨h c1 u1 hmem, ?_⟩
      intro he
      simp only [Prod.mk.injEq] at he
      exact userRoom_ne_portfolioRoom u1 pid he.2
    · simpa [step, hc0] using h
  | portfolioUpdateMsg s pid u ts thr => simpa [step] using h
  | disconnect c0 =>
    intro c1 u1 hmem
    simp only [step] at hmem ⊢
    rcases List.mem_filter.mp hmem with ⟨hmem2, hne⟩
    exact List.mem_filter.mpr ⟨h c1 u1 hmem2, hne⟩

/-- The personal-room invariant holds in every reachable state. -/
theorem run_personalRoomInv (verify : String → Option UserPayload) (db : Db)
    (evts : List SMsg) : personalRoomInv (run verify db evts) := by
  suffices haux : ∀ evts2 : List SMsg, ∀ st : SocketState, personalRoomInv st →
      personalRoomInv (evts2.foldl (step verify db) st) by
    exact haux evts initState (by intro c u hmem; simp [initState] at hmem)
  intro evts2
  induction evts2 with
  | nil => intro st h; simpa using h
  | cons m t ih => intro st h; exact ih _ (step_personalRoomInv verify db h m)

/-! Claim theorems. -/

/-- C5: for every connection attempt, authentication either returns the
identity obtained by the one identity-store lookup of the subject encoded
in the credential, or exactly one of the three authentication errors
(credential missing, credential invalid, subject not found); on any of
these errors the connection attempt is rejected outright — the socket
state is left unchanged, so nothing is registered and nothing is retried. -/
theorem auth_identity_or_one_of_three_errors
    (verify : String → Option UserPayload) (db : Db) (token : Option String) :
    ((token = none ∧ authenticateSocket verify db token = .error .tokenRequired)
      ∨ (∃ t, token = some t ∧ verify t = none ∧
          authenticateSocket verify db token = .error .authFailed)
      ∨ (∃ t d, token = some t ∧ verify t = some d ∧
          findUserById db d.user_id = none ∧
          authenticateSocket verify db token = .error .invalidToken)
      ∨ (∃ t d u, token = some t ∧ verify t = some d ∧
          findUserById db d.user_id = some u ∧
          authenticateSocket verify db token = .ok u))
    ∧ (∀ st : SocketState, ∀ c : ConnId, ∀ e : AuthError,
        authenticateSocket verify db token = .error e →
        step verify db st (.connectAttempt c token) = st) := by
  constructor
  · cases token with
    | none => exact .inl ⟨rfl, rfl⟩
    | some t =>
      cases hv : verify t with
      | none =>
        exact .inr (.inl ⟨t, rfl, hv, by simp [authenticateSocket, hv]⟩)
      | some d =>
        cases hf : findUserById db d.user_id with
        | none =>
          exact .inr (.inr (.inl ⟨t, d, rfl, hv, hf,
            by simp [authenticateSocket, hv, hf]⟩))
        | some u =>
          exact .inr (.inr (.inr ⟨t, d, u, rfl, hv, hf,
            by simp [authenticateSocket, hv, hf]⟩))
  · intro st c e he
    by_cases hc : st.isConn c = true
    · simp [step, hc]
    · simp [step, hc, he]

/-- Witness for C5: the concrete attempt with no credential is rejected
with state unchanged. -/
theorem auth_identity_or_one_of_three_errors_witness :
    step verify0 db0 st0 (.connectAttempt "C" none) = st0 :=
  (auth_identity_or_one_of_three_errors verify0 db0 none).2 st0 "C" .tokenRequired rfl

/-- C6: a connection whose every connect attempt fails authentication never
appears in the membership snapshot of any room, in any reachable state. -/
theorem failed_auth_never_in_any_room
    (verify : String → Option UserPayload) (db : Db) (evts : List SMsg) (c : ConnId)
    (hfail : ∀ token, SMsg.connectAttempt c token ∈ evts →
      ∀ u, authenticateSocket verify db token ≠ .ok u)
    (r : RoomId) : c ∉ membersOf (run verify db evts) r :=
  not_mem_membersOf ((run_absent verify db evts c hfail).2 r)

/-- Witness for C6: connection C with one bad token, trying to join the p1
room, is in no room of the resulting state. -/
theorem failed_auth_never_in_any_room_witness :
    "C" ∉ membersOf
      (run verify0 db0 [.connectAttempt "C" (some "bad"), .joinPortfolio "C" "p1"])
      (portfolioRoom "p1") := by
  apply failed_auth_never_in_any_room verify0 db0
    [.connectAttempt "C" (some "bad"), .joinPortfolio "C" "p1"] "C"
  intro token hmem u heq
  simp at hmem
  subst hmem
  rw [show authenticateSocket verify0 db0 (some "bad") = .error .authFailed from rfl] at heq
  exact Except.noConfusion heq

/-- C7 fails as literally stated: on registration the connection is joined
to the room named `user_u1` with an underscore, not to the room named
`user:u1` that the claim quotes — the colon-form room has no members. -/
theorem personal_room_colon_name_counterexample :
    ("A", "u1") ∈ st0.conns
    ∧ st0.memberOf "A" "user_u1" = true
    ∧ st0.memberOf "A" "user:u1" = false := by decide

/-- C7 amended: every connection that completes authentication as identity
u is automatically joined to its personal room `user_<u.user_id>` at
registration, and no client-issued leave operation can remove it from that
room while it stays connected: in every reachable state, every registered
connection is a member of its personal room. -/
theorem connected_member_of_personal_room
    (verify : String → Option UserPayload) (db : Db) (evts : List SMsg)
    (c : ConnId) (u : UserId) (h : (c, u) ∈ (run verify db evts).conns) :
    (c, userRoom u) ∈ (run verify db evts).membership :=
  run_personalRoomInv verify db evts c u h

/-- Witness for C7: connection A, registered as u1 and having joined and
left the p1 room, is still in its personal room. -/
theorem connected_member_of_personal_room_witness :
    ("A", userRoom "u1") ∈
      (run verify0 db0 [.connectAttempt "A" (some "tok1"), .joinPortfolio "A" "p1",
        .leavePortfolio "A" "p1"]).membership :=
  connected_member_of_personal_room verify0 db0
    [.connectAttempt "A" (some "tok1"), .joinPortfolio "A" "p1", .leavePortfolio "A" "p1"]
    "A" "u1" (by decide)

/-- In a duplicate-free list, a present element has multiplicity one. -/
theorem count_one_of_nodup_mem {α : Type _} [BEq α] [LawfulBEq α] {l : List α} {a : α}
    (hn : l.Nodup) (h : a ∈ l) : l.count a = 1 := by
  induction l with
  | nil => simp at h
  | cons b t ih =>
    rcases List.mem_cons.mp h with rfl | ht
    · have hnotin : a ∉ t := (List.nodup_cons.mp hn).1
      simp [List.count_cons, List.count_eq_zero.mpr hnotin]
    · have hne : a ≠ b := by
        rintro rfl
        exact (List.nodup_cons.mp hn).1 ht
      simp [List.count_cons, ih (List.nodup_cons.mp hn).2 ht, hne]

/-- A second join of the same pair is a no-op. -/
theorem roomJoin_idem (st : SocketState) (c : ConnId) (r : RoomId) :
    roomJoin (roomJoin st c r) c r = roomJoin st c r := by
  unfold roomJoin
  by_cases h : (c, r) ∈ st.membership <;> simp [h]

/-- A membership pair puts the connection in the room's snapshot. -/
theorem mem_membersOf {st : SocketState} {c : ConnId} {r : RoomId}
    (h : (c, r) ∈ st.membership) : c ∈ membersOf st r :=
  List.mem_map.mpr ⟨(c, r), List.mem_filter.mpr ⟨h, by simp⟩, rfl⟩

/-- C8: join and leave are idempotent on every reachable state: joining the
same room twice leaves the member in the snapshot exactly once (membership
is a set, never a multiset), and leaving a room the connection is not a
member of changes nothing — leave is total, so no error is raised. -/
theorem join_twice_once_leave_nonmember_noop
    (verify : String → Option UserPayload) (db : Db) (evts : List SMsg)
    (c : ConnId) (r : RoomId) :
    (membersOf (roomJoin (roomJoin (run verify db evts) c r) c r) r).count c = 1
    ∧ (c ∉ membersOf (run verify db evts) r →
        roomLeave (run verify db evts) c r = run verify db evts) := by
  constructor
  · rw [roomJoin_idem]
    rw [show membersOf (roomJoin (run verify db evts) c r) r =
      ((roomJoin (run verify db evts) c r).membership.filter (fun e => e.2 == r)).map
        Prod.fst from rfl]
    rw [count_membersOf]
    exact count_one_of_nodup_mem
      (roomJoin_nodup (run_nodup verify db evts) c r)
      (mem_roomJoin_self (run verify db evts) c r)
  · intro hnm
    have hpair : (c, r) ∉ (run verify db evts).membership :=
      fun hmem => hnm (mem_membersOf hmem)
    unfold roomLeave
    have hfilter : (run verify db evts).membership.filter (fun e => e != (c, r)) =
        (run verify db evts).membership := by
      apply List.filter_eq_self.mpr
      intro x hx
      simp only [bne_iff_ne, ne_eq]
      intro he
      rw [he] at hx
      exact hpair hx
    rw [hfilter]

/-- Witness for C8: with A and B connected in their personal rooms, joining
the p1 room twice yields multiplicity one, and A leaving the p1 room it
never joined changes nothing. -/
theorem join_twice_once_leave_nonmember_noop_witness :
    (membersOf (roomJoin (roomJoin st0 "A" (portfolioRoom "p1")) "A" (portfolioRoom "p1"))
      (portfolioRoom "p1")).count "A" = 1
    ∧ roomLeave st0 "A" (portfolioRoom "p1") = st0 := by
  have h := join_twice_once_leave_nonmember_noop verify0 db0
    [.connectAttempt "A" (some "tok1"), .connectAttempt "B" (some "tok2")] "A"
    (portfolioRoom "p1")
  exact ⟨h.1, h.2 (by decide)⟩

/-- Joining a room does not change registration. -/
theorem isConn_roomJoin (st : SocketState) (c c0 : ConnId) (r : RoomId) :
    (roomJoin st c0 r).isConn c = st.isConn c := by
  unfold SocketState.isConn
  rw [roomJoin_conns]

/-- Joining one room leaves the snapshot of every other room unchanged. -/
theorem membersOf_roomJoin_ne (st : SocketState) (c : ConnId) (r0 : RoomId)
    {r : RoomId} (h : r ≠ r0) :
    membersOf (roomJoin st c r0) r = membersOf st r := by
  unfold roomJoin membersOf
  by_cases hin : (c, r0) ∈ st.membership
  · simp [hin]
  · have hr0 : ((c, r0).2 == r) = false := by
      simp only [beq_eq_false_iff_ne, ne_eq]
      exact fun he => h he.symm
    simp [hin, List.filter_cons, hr0]

/-- Leaving one room leaves the snapshot of every other room unchanged. -/
theorem membersOf_roomLeave_ne (st : SocketState) (c : ConnId) (r0 : RoomId)
    {r : RoomId} (h : r ≠ r0) :
    membersOf (roomLeave st c r0) r = membersOf st r := by
  unfold roomLeave membersOf
  simp only [List.filter_filter]
  congr 1
  apply List.filter_congr
  intro x _
  cases x with
  | mk c1 r1 =>
    by_cases hr : r1 = r
    · subst hr
      have hxne : ((c1, r1) != (c, r0)) = true := by
        simp only [bne_iff_ne, ne_eq, Prod.mk.injEq, not_and]
        intro _ he
        exact h he
      simp [hxne]
    · simp [hr]

/-- C9 fails as stated: a join carrying a malformed room id (here the empty
string) produces no client-visible error event at all — the handler
validates nothing, keeps the connection open and silently joins the
`portfolio_` room. -/
theorem join_malformed_no_error_event_counterexample :
    socketMsgEmits st0 (.joinPortfolio "A" "") = []
    ∧ socketMsgEmits st0 (.leavePortfolio "A" "!!not-a-room!!") = []
    ∧ (step verify0 db0 st0 (.joinPortfolio "A" "")).isConn "A" = true
    ∧ ("A", "portfolio_") ∈ (step verify0 db0 st0 (.joinPortfolio "A" "")).membership := by
  decide

/-- C9 amended: the server performs no validation of the room id on join or
leave: any room id, malformed or unknown, is accepted silently — no error
event (nor any other event) is sent back on the connection, the connection
stays registered, and the membership snapshot of every room other than the
named `portfolio_<room_id>` room is unchanged. -/
theorem join_leave_any_room_id_silent
    (verify : String → Option UserPayload) (db : Db) (st : SocketState)
    (c : ConnId) (rid : String) :
    socketMsgEmits st (.joinPortfolio c rid) = []
    ∧ socketMsgEmits st (.leavePortfolio c rid) = []
    ∧ (step verify db st (.joinPortfolio c rid)).isConn c = st.isConn c
    ∧ (step verify db st (.leavePortfolio c rid)).isConn c = st.isConn c
    ∧ (∀ r : RoomId, r ≠ portfolioRoom rid →
        membersOf (step verify db st (.joinPortfolio c rid)) r = membersOf st r
        ∧ membersOf (step verify db st (.leavePortfolio c rid)) r = membersOf st r) := by
  by_cases hc : st.isConn c = true
  · have hj : step verify db st (.joinPortfolio c rid) = roomJoin st c (portfolioRoom rid) := by
      simp [step, hc]
    have hl : step verify db st (.leavePortfolio c rid) = roomLeave st c (portfolioRoom rid) := by
      simp [step, hc]
    refine ⟨rfl, rfl, ?_, ?_, ?_⟩
    · rw [hj, isConn_roomJoin]
    · rw [hl]
      rfl
    · intro r hr
      rw [hj, hl]
      exact ⟨membersOf_roomJoin_ne st c (portfolioRoom rid) hr,
        membersOf_roomLeave_ne st c (portfolioRoom rid) hr⟩
  · have hj : step verify db st (.joinPortfolio c rid) = st := by
      simp [step, hc]
    have hl : step verify db st (.leavePortfolio c rid) = st := by
      simp [step, hc]
    refine ⟨rfl, rfl, by rw [hj], by rw [hl], ?_⟩
    intro r _
    rw [hj, hl]
    exact ⟨rfl, rfl⟩

/-- Witness for C9 (amended): a join of the malformed empty room id leaves
the personal room of A untouched and emits nothing. -/
theorem join_leave_any_room_id_silent_witness :
    socketMsgEmits st0 (.joinPortfolio "A" "") = []
    ∧ membersOf (step verify0 db0 st0 (.joinPortfolio "A" "")) (userRoom "u1")
        = membersOf st0 (userRoom "u1") := by
  have h := join_leave_any_room_id_silent verify0 db0 st0 "A" ""
  exact ⟨h.1, (h.2.2.2.2 (userRoom "u1") (by decide)).1⟩

/-- C1 fails as stated: the contact handler emits, besides the one
notification to the owner's personal room, a `contact/form/submit` event
with io.emit; that event from the submission is delivered to connection B,
which is not a member of the owner's personal room (neither of the
underscore-named room the code uses nor of the colon-named room the claim
quotes) at the instant of dispatch. -/
theorem contact_event_reaches_nonmember_counterexample :
    contactBroadcast0 ∈ (contactHandler "c9" "n9" "t0" db0 "p1"
      ⟨"Visitor", "visitor@example.com", "hello"⟩).emits
    ∧ deliveredTo st0 contactBroadcast0 "B" = true
    ∧ st0.memberOf "B" (userRoom "u1") = false
    ∧ st0.memberOf "B" "user:u1" = false := by
  decide

/-- C1 amended: a contact-form submission on a portfolio whose owner is u
emits exactly one `notification` event; that event targets the owner's
personal room `user_<u>` and reaches exactly the members of that room at
the instant of dispatch; but the handler additionally broadcasts one
`contact/form/submit` event with io.emit, which reaches every connected
socket regardless of room membership. -/
theorem contact_one_notification_to_owner_room_plus_global_broadcast
    (uuidC uuidN now : String) (db : Db) (pid : String) (body : ContactInput)
    (st : SocketState) (p : Portfolio)
    (hp : db.portfolios.find? (fun q => q.portfolio_id == pid) = some p) :
    ((contactHandler uuidC uuidN now db pid body).emits.countP
        (fun e => e.event == "notification") = 1)
    ∧ (∀ e ∈ (contactHandler uuidC uuidN now db pid body).emits,
        e.event = "notification" → e.target = .room (userRoom p.user_id))
    ∧ (∀ e ∈ (contactHandler uuidC uuidN now db pid body).emits,
        ∀ c : ConnId, e.event = "notification" →
          deliveredTo st e c = st.memberOf c (userRoom p.user_id))
    ∧ (∀ e ∈ (contactHandler uuidC uuidN now db pid body).emits,
        e.event ≠ "notification" →
          e.target = .allSockets ∧ ∀ c : ConnId, deliveredTo st e c = st.isConn c) := by
  have hemits : (contactHandler uuidC uuidN now db pid body).emits =
      [emitNotificationToUser p.user_id
        (.notif "contact_form" ("New contact form submission from " ++ body.name) now),
       ⟨.allSockets, "contact/form/submit",
        .contactForm ⟨uuidC, pid, body.name, body.email, body.message, now⟩⟩] := by
    simp [contactHandler, hp]
  rw [hemits]
  refine ⟨rfl, ?_, ?_, ?_⟩
  · intro e he hev
    rcases List.mem_cons.mp he with rfl | he2
    · rfl
    · rcases List.mem_cons.mp he2 with rfl | he3
      · simp at hev
      · simp at he3
  · intro e he c hev
    rcases List.mem_cons.mp he with rfl | he2
    · rfl
    · rcases List.mem_cons.mp he2 with rfl | he3
      · simp at hev
      · simp at he3
  · intro e he hev
    rcases List.mem_cons.mp he with rfl | he2
    · simp [emitNotificationToUser] at hev
    · rcases List.mem_cons.mp he2 with rfl | he3
      · exact ⟨rfl, fun c => rfl⟩
      · simp at he3

/-- Witness for C1 (amended): on the concrete submission, exactly one
notification event is emitted. -/
theorem contact_one_notification_witness :
    (contactHandler "c9" "n9" "t0" db0 "p1"
      ⟨"Visitor", "visitor@example.com", "hello"⟩).emits.countP
        (fun e => e.event == "notification") = 1 :=
  (contact_one_notification_to_owner_room_plus_global_broadcast
    "c9" "n9" "t0" db0 "p1" ⟨"Visitor", "visitor@example.com", "hello"⟩ st0
    portfolio1 rfl).1

/-- Notification emits are good: their target is the personal room. -/
theorem goodEmit_notification (uid : UserId) (p : Payload) :
    goodEmit (emitNotificationToUser uid p) :=
  ⟨by show "notification" ∈ serverEventNames; decide, fun _ => ⟨uid, rfl⟩⟩

/-- Portfolio-update emits are good. -/
theorem goodEmit_portfolioUpdate (pid : String) (p : Payload) :
    goodEmit (emitPortfolioUpdate pid p) :=
  ⟨by show "portfolio_updates" ∈ serverEventNames; decide,
   fun h => absurd (show ("portfolio_updates" : String) = "notification" from h) (by decide)⟩

/-- Analytics emits are good. -/
theorem goodEmit_analytics (pid : String) (p : Payload) :
    goodEmit (emitAnalyticsUpdate pid p) :=
  ⟨by show "analytics/updates" ∈ serverEventNames; decide,
   fun h => absurd (show ("analytics/updates" : String) = "notification" from h) (by decide)⟩

/-- The contact-form global broadcast is good. -/
theorem goodEmit_contactSubmit (c : Contact) :
    goodEmit ⟨.allSockets, "contact/form/submit", .contactForm c⟩ :=
  ⟨by show "contact/form/submit" ∈ serverEventNames; decide,
   fun h => absurd (show ("contact/form/submit" : String) = "notification" from h) (by decide)⟩

/-- The testimonial global broadcast is good. -/
theorem goodEmit_testimonial (t : Testimonial) :
    goodEmit ⟨.allSockets, "testimonials/new", .testimonialData t⟩ :=
  ⟨by show "testimonials/new" ∈ serverEventNames; decide,
   fun h => absurd (show ("testimonials/new" : String) = "notification" from h) (by decide)⟩

/-- The live-preview broadcast is good. -/
theorem goodEmit_livePreview (r : RoomId) (s : ConnId) (pid upd ts : String) :
    goodEmit ⟨.roomExceptSender r s, "live_preview_update", .livePreview pid upd ts⟩ :=
  ⟨by show "live_preview_update" ∈ serverEventNames; decide,
   fun h => absurd (show ("live_preview_update" : String) = "notification" from h) (by decide)⟩

/-- The socket error reply is good. -/
theorem goodEmit_errorReply (c : ConnId) (msg : String) :
    goodEmit ⟨.socketOnly c, "error", .errMessage msg⟩ :=
  ⟨by show "error" ∈ serverEventNames; decide,
   fun h => absurd (show ("error" : String) = "notification" from h) (by decide)⟩

/-- Every emit of every REST operation is good. -/
theorem opEmits_good (sign : String → String → String) (db : Db) (op : ServerOp) :
    ∀ e ∈ opEmits sign db op, goodEmit e := by
  intro e he
  cases op with
  | registerOp uuid now body =>
    by_cases hex : (findUserByEmail db body.email).isSome
    · simp [opEmits, opResult, registerHandler, hex] at he
    · simp [opEmits, opResult, registerHandler, hex] at he
      subst he
      exact goodEmit_notification _ _
  | loginOp email password =>
    by_cases hempty : (email.isEmpty || password.isEmpty) = true
    · simp [opEmits, opResult, loginHandler, hempty] at he
    · cases hfind : findUserByEmail db (strTrim (strToLower email)) with
      | none => simp [opEmits, opResult, loginHandler, hempty, hfind] at he
      | some row =>
        by_cases hpw : (password != row.password_hash) = true
        · simp [opEmits, opResult, loginHandler, hempty, hfind, hpw] at he
        · simp [opEmits, opResult, loginHandler, hempty, hfind, hpw] at he
          subst he
          exact goodEmit_notification _ _
  | createPortfolioOp uuidP uuidA now auth body =>
    by_cases hauth : (body.user_id != auth) = true
    · simp [opEmits, opResult, createPortfolioHandler, hauth] at he
    · simp [opEmits, opResult, createPortfolioHandler, hauth] at he
      subst he
      exact goodEmit_portfolioUpdate _ _
  | putPortfolioOp uid pid upd now thr =>
    cases hfind : findOwnedPortfolio db pid uid with
    | none => simp [opEmits, opResult, putPortfolioHandler, hfind] at he
    | some p =>
      cases thr with
      | true => simp [opEmits, opResult, putPortfolioHandler, hfind] at he
      | false =>
        simp [opEmits, opResult, putPortfolioHandler, hfind] at he
        subst he
        exact goodEmit_portfolioUpdate _ _
  | postSectionOp uuid uid pid body =>
    cases hfind : findOwnedPortfolio db pid uid with
    | none => simp [opEmits, opResult, postSectionHandler, hfind] at he
    | some p =>
      simp [opEmits, opResult, postSectionHandler, hfind] at he
      subst he
      exact goodEmit_portfolioUpdate _ _
  | putSectionOp uid pid sid upd =>
    cases hfind : findOwnedSection db sid pid uid with
    | none => simp [opEmits, opResult, putSectionHandler, hfind] at he
    | some s0 =>
      simp [opEmits, opResult, putSectionHandler, hfind] at he
      subst he
      exact goodEmit_portfolioUpdate _ _
  | deleteSectionOp uid pid sid =>
    cases hfind : findOwnedSection db sid pid uid with
    | none => simp [opEmits, opResult, deleteSectionHandler, hfind] at he
    | some s0 =>
      simp [opEmits, opResult, deleteSectionHandler, hfind] at he
      subst he
      exact goodEmit_portfolioUpdate _ _
  | postBlogOp uuid now uid pid body =>
    cases hfind : findOwnedPortfolio db pid uid with
    | none => simp [opEmits, opResult, postBlogHandler, hfind] at he
    | some p =>
      simp [opEmits, opResult, postBlogHandler, hfind] at he
      subst he
      exact goodEmit_portfolioUpdate _ _
  | viewOp pid =>
    simp only [opEmits, opResult, viewHandler] at he
    split at he
    · simp at he
      subst he
      exact goodEmit_analytics _ _
    · simp at he
  | contactOp uuidC uuidN now pid body =>
    cases hfind : db.portfolios.find? (fun p => p.portfolio_id == pid) with
    | none => simp [opEmits, opResult, contactHandler, hfind] at he
    | some p =>
      simp [opEmits, opResult, contactHandler, hfind] at he
      rcases he with rfl | rfl
      · exact goodEmit_notification _ _
      · exact goodEmit_contactSubmit _
  | testimonialOp uuid uid pid body =>
    cases hfind : findOwnedPortfolio db pid uid with
    | none => simp [opEmits, opResult, testimonialHandler, hfind] at he
    | some p =>
      simp [opEmits, opResult, testimonialHandler, hfind] at he
      subst he
      exact goodEmit_testimonial _

/-- Every emit of every socket message handler is good. -/
theorem socketMsgEmits_good (st : SocketState) (m : SMsg) :
    ∀ e ∈ socketMsgEmits st m, goodEmit e := by
  intro e he
  cases m with
  | portfolioUpdateMsg sender pid updates ts thr =>
    by_cases hc : st.isConn sender = true
    · cases thr with
      | true =>
        simp [socketMsgEmits, hc] at he
        subst he
        exact goodEmit_errorReply _ _
      | false =>
        simp [socketMsgEmits, hc] at he
        subst he
        exact goodEmit_livePreview _ _ _ _ _
    · simp [socketMsgEmits, hc] at he
  | connectAttempt c token => simp [socketMsgEmits] at he
  | joinPortfolio c pid => simp [socketMsgEmits] at he
  | leavePortfolio c pid => simp [socketMsgEmits] at he
  | disconnect c => simp [socketMsgEmits] at he

/-- C2 fails as stated: the put-portfolio handler pushes an event named
`portfolio_updates`, which is not one of the six event types the claim
enumerates (the code's wire names differ from the spec's set). -/
theorem event_name_outside_spec_set_counterexample :
    putEmit0 ∈ opEmits sign0 db0 (.putPortfolioOp "u1" "p1" ⟨none, none, none⟩ "t1" false)
    ∧ putEmit0.event ∉ specEventNames := by
  decide

/-- C2 amended: every server-to-client message pushed by any REST operation
or socket message handler carries one of the seven event names appearing at
the emit sites of server.ts — notification, portfolio_updates,
analytics/updates, contact/form/submit, testimonials/new,
live_preview_update, error — and `notification` events are dispatched only
to personal `user_` rooms, never to portfolio rooms or broadcast targets. -/
theorem events_closed_actual_set_notification_personal_only
    (sign : String → String → String) (db : Db) (op : ServerOp)
    (st : SocketState) (m : SMsg) :
    (∀ e ∈ opEmits sign db op,
      e.event ∈ serverEventNames
      ∧ (e.event = "notification" → ∃ uid : UserId, e.target = .room (userRoom uid)))
    ∧ (∀ e ∈ socketMsgEmits st m,
      e.event ∈ serverEventNames
      ∧ (e.event = "notification" → ∃ uid : UserId, e.target = .room (userRoom uid))) :=
  ⟨opEmits_good sign db op, socketMsgEmits_good st m⟩

/-- Witness for C2 (amended): the event name of the concrete contact
notification is in the actual set and its target is a personal room. -/
theorem events_closed_actual_set_witness :
    contactBroadcast0.event ∈ serverEventNames
    ∧ (contactBroadcast0.event = "notification" →
        ∃ uid : UserId, contactBroadcast0.target = .room (userRoom uid)) :=
  (events_closed_actual_set_notification_personal_only sign0 db0
    (.contactOp "c9" "n9" "t0" "p1" ⟨"Visitor", "visitor@example.com", "hello"⟩)
    st0 (.disconnect "A")).1 contactBroadcast0 (by decide)

/-- C3 fails as stated: on the concrete put-portfolio run where the
dispatch throws, the caller receives a 500 instead of the 200 success
response — even though the committed write is identical to the error-free
run and is not rolled back. -/
theorem dispatch_error_changes_response_counterexample :
    (putPortfolioHandler db0 "u1" "p1" ⟨some "New Title", none, none⟩ "t9" true).status = 500
    ∧ (putPortfolioHandler db0 "u1" "p1" ⟨some "New Title", none, none⟩ "t9" true).db
        = (putPortfolioHandler db0 "u1" "p1" ⟨some "New Title", none, none⟩ "t9" false).db
    ∧ (putPortfolioHandler db0 "u1" "p1" ⟨some "New Title", none, none⟩ "t9" false).status = 200 := by
  decide

/-- C3 amended: an error raised while dispatching the event of PUT
/api/portfolios/:portfolio_id is caught by the route's catch-all and never
rolls the committed write back — the stored rows equal those of an
error-free run and no emit escapes — but it does change the REST response:
the caller receives a 500 instead of the 200 success. -/
theorem dispatch_error_keeps_write_but_changes_response
    (db : Db) (uid pid : String) (upd : PortfolioUpdateInput) (now : String)
    (p : Portfolio) (hp : findOwnedPortfolio db pid uid = some p) :
    (putPortfolioHandler db uid pid upd now true).db
      = (putPortfolioHandler db uid pid upd now false).db
    ∧ (putPortfolioHandler db uid pid upd now true).status = 500
    ∧ (putPortfolioHandler db uid pid upd now true).emits = []
    ∧ (putPortfolioHandler db uid pid upd now false).status = 200 := by
  simp [putPortfolioHandler, hp]

/-- Witness for C3 (amended): the concrete failing-dispatch run keeps the
write and answers 500. -/
theorem dispatch_error_keeps_write_witness :
    (putPortfolioHandler db0 "u1" "p1" ⟨some "New Title", none, none⟩ "t9" true).db
      = (putPortfolioHandler db0 "u1" "p1" ⟨some "New Title", none, none⟩ "t9" false).db
    ∧ (putPortfolioHandler db0 "u1" "p1" ⟨some "New Title", none, none⟩ "t9" true).status = 500
    ∧ (putPortfolioHandler db0 "u1" "p1" ⟨some "New Title", none, none⟩ "t9" true).emits = []
    ∧ (putPortfolioHandler db0 "u1" "p1" ⟨some "New Title", none, none⟩ "t9" false).status = 200 :=
  dispatch_error_keeps_write_but_changes_response db0 "u1" "p1"
    ⟨some "New Title", none, none⟩ "t9" portfolio1 rfl

/-- A trace that is one response dispatches after commits, vacuously. -/
theorem dac_single_respond (s : Nat) : dispatchAfterCommit [.respond s] := by
  intro i hi
  fin_cases i
  simp [Action.isDispatch] at hi

/-- A write followed by a response dispatches after commits, vacuously. -/
theorem dac_write_respond (t : String) (b : Bool) (s : Nat) :
    dispatchAfterCommit [.dbWrite t b, .respond s] := by
  intro i hi
  fin_cases i <;> simp [Action.isDispatch] at hi

/-- A committed write, then a dispatch, then a response: the dispatch is
preceded by the commit. -/
theorem dac_write_dispatch_respond (t : String) (e : Emit) (s : Nat) :
    dispatchAfterCommit [.dbWrite t true, .dispatch e, .respond s] := by
  intro i hi
  fin_cases i
  · simp [Action.isDispatch] at hi
  · exact ⟨⟨0, by norm_num⟩, by norm_num, rfl⟩
  · simp [Action.isDispatch] at hi

/-- C4: in the execution traces of PUT /api/portfolios/:portfolio_id and
POST /api/portfolios/:portfolio_id/view, every socket dispatch is strictly
preceded by the committed, row-touching durable write — the event is
observable only after the write's success is acknowledged, and no dispatch
happens at all when the write misses or the request is rejected. -/
theorem dispatch_only_after_committed_write
    (db : Db) (uid pid pid2 : String) (upd : PortfolioUpdateInput)
    (now : String) (emitThrows : Bool) :
    dispatchAfterCommit (putPortfolioTrace db uid pid upd now emitThrows)
    ∧ dispatchAfterCommit (viewTrace db pid2) := by
  constructor
  · unfold putPortfolioTrace
    dsimp only
    split
    · exact dac_single_respond 404
    · split
      · exact dac_write_respond _ _ _
      · exact dac_write_dispatch_respond _ _ _
  · unfold viewTrace
    dsimp only
    split
    · exact dac_write_dispatch_respond _ _ _
    · exact dac_write_respond _ _ _

/-- C10: a successful register emits exactly one `notification` event to
room `user_<user_id>` of the created user, and a successful login emits
exactly one `notification` event to room `user_<user_id>` of the logged-in
user; both payloads carry the freshly signed token over (user_id, email)
together with the full user record, so any live session already in that
personal room receives the new credential. -/
theorem auth_success_emits_credential_notification
    (sign : String → String → String) (uuid now : String) (db : Db)
    (body : RegisterInput) (email password : String) (row : UserRow)
    (hreg : findUserByEmail db body.email = none)
    (hne : email.isEmpty = false ∧ password.isEmpty = false)
    (hlog : findUserByEmail db (strTrim (strToLower email)) = some row)
    (hpw : password = row.password_hash) :
    (registerHandler sign uuid now db body).status = 201
    ∧ (registerHandler sign uuid now db body).emits =
        [⟨.room (userRoom uuid), "notification",
          .auth ⟨uuid, strTrim (strToLower body.email), strTrim body.name, now⟩
            (sign uuid (strTrim (strToLower body.email)))⟩]
    ∧ (loginHandler sign db email password).status = 200
    ∧ (loginHandler sign db email password).emits =
        [⟨.room (userRoom row.user.user_id), "notification",
          .auth row.user (sign row.user.user_id row.user.email)⟩] := by
  subst hpw
  refine ⟨?_, ?_, ?_, ?_⟩
  · simp [registerHandler, hreg]
  · simp [registerHandler, hreg, emitNotificationToUser]
  · simp [loginHandler, hne.1, hne.2, hlog]
  · simp [loginHandler, hne.1, hne.2, hlog, emitNotificationToUser]

/-- Witness for C10: concrete register of a fresh user and login of seed
user u1 each emit the one credential notification to the personal room. -/
theorem auth_success_emits_credential_notification_witness :
    (registerHandler sign0 "u3" "t3" db0 ⟨"new@example.com", "pw3", "New User"⟩).status = 201
    ∧ (registerHandler sign0 "u3" "t3" db0 ⟨"new@example.com", "pw3", "New User"⟩).emits =
        [⟨.room (userRoom "u3"), "notification",
          .auth ⟨"u3", strTrim (strToLower "new@example.com"), strTrim "New User", "t3"⟩
            (sign0 "u3" (strTrim (strToLower "new@example.com")))⟩]
    ∧ (loginHandler sign0 db0 "user1@example.com" "password123").status = 200
    ∧ (loginHandler sign0 db0 "user1@example.com" "password123").emits =
        [⟨.room (userRoom user1.user_id), "notification",
          .auth user1 (sign0 user1.user_id user1.email)⟩] :=
  auth_success_emits_credential_notification sign0 "u3" "t3" db0
    ⟨"new@example.com", "pw3", "New User"⟩ "user1@example.com" "password123"
    ⟨user1, "password123"⟩ rfl ⟨rfl, rfl⟩ (by decide) rfl

end Portfolio5














